import Mathlib

/-
Verification of the lending-policy core: a shallow embedding of
`LoanApprover.approve_loan` (loan_approver.py) and of the five operations of
`LoanManager` (loan_manager.py), with theorems checking the specified
behaviour.

Modelling conventions:
* Python numeric parameters (scores, incomes, debts) are embedded as exact
  rationals (`ℚ`) and integer day/count parameters as `ℤ`; decimal literals
  such as `0.4` are the exact rationals they denote.
* `float('inf')` and its comparisons are modelled by `PyFloat`, a rational
  extended with a positive-infinity point, with `x ≤ t` false for `x = inf`
  and finite `t`, exactly as for IEEE floats.
* A Python function that can raise is embedded as `Except Err _`; the `Err`
  constructors record the exception class and message raised at each raise
  site of the source (`ValueError`, `TypeError`, Python's implicit
  `KeyError` on dict indexing and `ZeroDivisionError` on division).
  In the specification's taxonomy, the `ValueError ("Unknown ..." )`
  raises are its ConfigError and the remaining raises its InvalidArgument.
* Python dicts with fixed string keys are embedded as association lists
  queried with `List.lookup`.
* `datetime` values are embedded at whole-day granularity by `PyVal.datetime`
  carrying a day number; any non-datetime argument is `PyVal.nonDatetime`,
  mirroring the `isinstance` check.
-/

/-- Exceptions raised by the embedded code, by class and message. -/
inductive Err where
  | valueError (msg : String)
  | typeError (msg : String)
  | keyError (msg : String)
  | zeroDivisionError (msg : String)
  deriving DecidableEq

deriving instance DecidableEq for Except

/-- The three decision strings returned by `approve_loan`. -/
inductive Decision where
  | Approved
  | Rejected
  | ManualReview
  deriving DecidableEq

/-- A Python float value as it occurs in `approve_loan`: either a finite
rational or `float('inf')`. -/
inductive PyFloat where
  | inf
  | fin (q : ℚ)
  deriving DecidableEq

/-- Comparison `x <= t` of a `PyFloat` with a finite threshold, as for IEEE
floats: `inf <= t` is false for finite `t`. -/
def pyLE (a : PyFloat) (b : ℚ) : Bool :=
  match a with
  | PyFloat.inf => false
  | PyFloat.fin q => decide (q ≤ b)

/-- `LoanApprover.__init__`: `self.min_credit_score = 650`. -/
def min_credit_score : ℤ := 650

/-- `LoanApprover.__init__`: `self.min_income = 30000`. -/
def min_income : ℚ := 30000

/-- `LoanApprover.__init__`: `self.max_debt_ratio = 0.4`. -/
def max_debt_ratio : ℚ := 2 / 5

/-- Python division of the two finite quantities in `approve_loan`: raises
`ZeroDivisionError` on a zero denominator, otherwise exact. -/
def pydiv (a b : ℚ) : Except Err PyFloat :=
  if b = 0 then Except.error (Err.zeroDivisionError ("float division by zero"))
  else Except.ok (PyFloat.fin (a / b))

/-- The debt-ratio computation at the top of `approve_loan`:
`float('inf')` when `annual_income == 0`, else `existing_debt / annual_income`. -/
def debt_ratio (annual_income existing_debt : ℚ) : Except Err PyFloat :=
  if annual_income = 0 then Except.ok PyFloat.inf
  else pydiv existing_debt annual_income

/-- `LoanApprover.approve_loan`, embedded clause by clause. -/
def approve_loan (credit_score : ℤ) (annual_income existing_debt : ℚ)
    (is_employed : Bool) : Except Err Decision :=
  match debt_ratio annual_income existing_debt with
  | Except.error e => Except.error e
  | Except.ok dr =>
    if is_employed = false then Except.ok Decision.Rejected
    else if 750 ≤ credit_score then
      (if pyLE dr max_debt_ratio then Except.ok Decision.Approved
       else Except.ok Decision.ManualReview)
    else if min_credit_score ≤ credit_score then
      (if min_income ≤ annual_income ∧ pyLE dr max_debt_ratio = true then
         Except.ok Decision.Approved
       else Except.ok Decision.ManualReview)
    else
      (if 2 * min_income ≤ annual_income ∧ pyLE dr ( max_debt_ratio / 2) = true then
         Except.ok Decision.ManualReview
       else Except.ok Decision.Rejected)

/-- Reference function for claim C1, written from the claim's own wording
(ordered first match, thresholds 750 / 650, ratio bounds 0.4 and 0.2, income
bounds 30000 and 60000), to be compared with `approve_loan`. -/
def decide_spec (credit_score : ℤ) (annual_income existing_debt : ℚ)
    (is_employed : Bool) : Decision :=
  let dr : PyFloat :=
    if annual_income = 0 then PyFloat.inf
    else PyFloat.fin (existing_debt / annual_income)
  if is_employed = false then Decision.Rejected
  else if 750 ≤ credit_score then
    (if pyLE dr (2 / 5) then Decision.Approved else Decision.ManualReview)
  else if 650 ≤ credit_score then
    (if 30000 ≤ annual_income ∧ pyLE dr (2 / 5) = true then Decision.Approved
     else Decision.ManualReview)
  else
    (if 60000 ≤ annual_income ∧ pyLE dr (1 / 5) = true then Decision.ManualReview
     else Decision.Rejected)

/-- `LoanManager.REGULAR_BOOK`. -/
def REGULAR_BOOK : String := "regular"

/-- `LoanManager.POPULAR_BOOK`. -/
def POPULAR_BOOK : String := "popular"

/-- `LoanManager.REFERENCE_BOOK`. -/
def REFERENCE_BOOK : String := "reference"

/-- `LoanManager.REGULAR_USER`. -/
def REGULAR_USER : String := "regular"

/-- `LoanManager.PREMIUM_USER`. -/
def PREMIUM_USER : String := "premium"

/-- `LoanManager.RESEARCHER_USER`. -/
def RESEARCHER_USER : String := "researcher"

/-- `LoanManager.LOAN_PERIODS`: book type to (min, max) loan days. -/
def LOAN_PERIODS : List (String × ℤ × ℤ) :=
  [(REGULAR_BOOK, 14, 30), (POPULAR_BOOK, 7, 14), (REFERENCE_BOOK, 1, 3)]

/-- `LoanManager.MAX_BOOKS`: user type to maximum books borrowed. -/
def MAX_BOOKS : List (String × ℤ) :=
  [(REGULAR_USER, 5), (PREMIUM_USER, 10), (RESEARCHER_USER, 15)]

/-- `LoanManager.MAX_RENEWALS`. -/
def MAX_RENEWALS : ℤ := 2

/-- The `fine_rates` dict local to `LoanManager.calculate_fine`. -/
def fine_rates : List (String × ℚ) :=
  [(REGULAR_BOOK, 1 / 2), (POPULAR_BOOK, 1), (REFERENCE_BOOK, 2)]

/-- `LoanManager.validate_loan_days`. -/
def validate_loan_days (book_type : String) (loan_days : ℤ) : Except Err Bool :=
  match LOAN_PERIODS.lookup book_type with
  | none => Except.error (Err.valueError ("Unknown book type: " ++ book_type))
  | some p =>
    if loan_days < p.1 ∨ p.2 < loan_days then Except.ok false
    else Except.ok true

/-- `LoanManager.validate_book_quantity`. -/
def validate_book_quantity (user_type : String)
    (current_borrowed additional_books : ℤ) : Except Err Bool :=
  if (MAX_BOOKS.lookup user_type) = none then
    Except.error (Err.valueError ("Unknown user type: " ++ user_type))
  else if current_borrowed < 0 then
    Except.error (Err.valueError ("Current borrowed books cannot be negative"))
  else if additional_books ≤ 0 then
    Except.error (Err.valueError ("Additional books must be positive"))
  else
    match MAX_BOOKS.lookup user_type with
    | none => Except.error (Err.keyError user_type)
    | some max_allowed =>
      if max_allowed < current_borrowed + additional_books then Except.ok false
      else Except.ok true

/-- `LoanManager.can_renew_loan`. -/
def can_renew_loan (book_type : String)
    (days_already_loaned renewal_days previous_renewals : ℤ)
    (is_requested : Bool) : Except Err Bool :=
  if (LOAN_PERIODS.lookup book_type) = none then
    Except.error (Err.valueError ("Unknown book type: " ++ book_type))
  else if days_already_loaned < 0 then
    Except.error (Err.valueError ("Days already loaned cannot be negative"))
  else if renewal_days ≤ 0 then
    Except.error (Err.valueError ("Renewal days must be positive"))
  else if previous_renewals < 0 then
    Except.error (Err.valueError ("Previous renewals cannot be negative"))
  else if is_requested then Except.ok false
  else if MAX_RENEWALS ≤ previous_renewals then Except.ok false
  else
    match LOAN_PERIODS.lookup book_type with
    | none => Except.error (Err.keyError book_type)
    | some p =>
      if p.2 < days_already_loaned + renewal_days then Except.ok false
      else Except.ok true

/-- A Python value passed as `loan_date`: a `datetime` at day granularity, or
anything that is not a `datetime`. -/
inductive PyVal where
  | datetime (day : ℤ)
  | nonDatetime
  deriving DecidableEq

/-- `LoanManager.calculate_due_date`: `isinstance` check, positivity check,
then `loan_date + timedelta(days=loan_days)`. -/
def calculate_due_date (loan_date : PyVal) (loan_days : ℤ) : Except Err PyVal :=
  match loan_date with
  | PyVal.nonDatetime => Except.error (Err.typeError ("Loan date must be a datetime object"))
  | PyVal.datetime d =>
    if loan_days ≤ 0 then Except.error (Err.valueError ("Loan days must be positive"))
    else Except.ok (PyVal.datetime (d + loan_days))

/-- `LoanManager.calculate_fine`. -/
def calculate_fine (days_overdue : ℤ) (book_type : String) : Except Err ℚ :=
  if days_overdue ≤ 0 then Except.ok 0
  else if (LOAN_PERIODS.lookup book_type) = none then
    Except.error (Err.valueError ("Unknown book type: " ++ book_type))
  else
    match fine_rates.lookup book_type with
    | none => Except.error (Err.keyError book_type)
    | some daily_rate =>
      Except.ok (min ((days_overdue : ℚ) * daily_rate) (daily_rate * 10))

/-- Every book-type string is one of the three known keys, or else it is
absent from both `LOAN_PERIODS` and `fine_rates` (the two tables share their
key set). -/
lemma book_type_cases (bt : String) :
    bt = REGULAR_BOOK ∨ bt = POPULAR_BOOK ∨ bt = REFERENCE_BOOK ∨
      (LOAN_PERIODS.lookup bt = none ∧ fine_rates.lookup bt = none) := by
  by_cases h1 : bt = REGULAR_BOOK
  · exact Or.inl h1
  by_cases h2 : bt = POPULAR_BOOK
  · exact Or.inr (Or.inl h2)
  by_cases h3 : bt = REFERENCE_BOOK
  · exact Or.inr (Or.inr (Or.inl h3))
  have b1 : (bt == REGULAR_BOOK) = false := beq_eq_false_iff_ne.mpr h1
  have b2 : (bt == POPULAR_BOOK) = false := beq_eq_false_iff_ne.mpr h2
  have b3 : (bt == REFERENCE_BOOK) = false := beq_eq_false_iff_ne.mpr h3
  refine Or.inr (Or.inr (Or.inr ⟨?_, ?_⟩)) <;>
    simp [LOAN_PERIODS, fine_rates, List.lookup, b1, b2, b3]

/-- Every user-tier string is one of the three known keys of `MAX_BOOKS`, or
absent from it. -/
lemma user_type_cases (ut : String) :
    ut = REGULAR_USER ∨ ut = PREMIUM_USER ∨ ut = RESEARCHER_USER ∨
      MAX_BOOKS.lookup ut = none := by
  by_cases h1 : ut = REGULAR_USER
  · exact Or.inl h1
  by_cases h2 : ut = PREMIUM_USER
  · exact Or.inr (Or.inl h2)
  by_cases h3 : ut = RESEARCHER_USER
  · exact Or.inr (Or.inr (Or.inl h3))
  have b1 : (ut == REGULAR_USER) = false := beq_eq_false_iff_ne.mpr h1
  have b2 : (ut == PREMIUM_USER) = false := beq_eq_false_iff_ne.mpr h2
  have b3 : (ut == RESEARCHER_USER) = false := beq_eq_false_iff_ne.mpr h3
  refine Or.inr (Or.inr (Or.inr ?_))
  simp [MAX_BOOKS, List.lookup, b1, b2, b3]

/-- Claim C2 counterexample: with an unknown category and
`isRequestedByOther = true`, `can_renew_loan` raises the unknown-book-type
error instead of returning `false`, so the veto does not override invalid
argument values. -/
theorem c2_counterexample :
    can_renew_loan ("zzz") 1 1 0 true =
        Except.error (Err.valueError ("Unknown book type: zzz")) ∧
      can_renew_loan ("zzz") 1 1 0 true ≠ Except.ok false := by
  constructor <;> decide

/-- Claim C2 (amended): whenever the other arguments pass validation (known
category, `daysAlreadyLoaned ≥ 0`, `renewalDays > 0`, `previousRenewals ≥ 0`),
`can_renew_loan` returns `false` as soon as `isRequestedByOther = true`,
regardless of the other values; the veto is the first business rule checked,
but argument validation runs before it. -/
theorem c2_veto_after_validation : ∀ (bt : String) (d r p : ℤ),
    (LOAN_PERIODS.lookup bt).isSome → 0 ≤ d → 0 < r → 0 ≤ p →
    can_renew_loan bt d r p true = Except.ok false := by
  intro bt d r p hbt hd hr hp
  rw [Option.isSome_iff_exists] at hbt
  obtain ⟨v, hv⟩ := hbt
  simp only [can_renew_loan, hv]
  simp [show ¬ d < 0 by omega, show ¬ r ≤ 0 by omega, show ¬ p < 0 by omega]

/-- Claim C2 witness: the amended statement at a concrete valid input. -/
theorem c2_witness : can_renew_loan REGULAR_BOOK 0 1 0 true = Except.ok false :=
  c2_veto_after_validation REGULAR_BOOK 0 1 0 (by decide) (by decide) (by decide)
    (by decide)

/-- Claim C7: `validate_loan_days` raises the unknown-book-type error exactly
when the category is unknown; otherwise it returns whether
`minDays(category) ≤ requestedDays ≤ maxDays(category)`, with the ranges
Regular 14-30, Popular 7-14, Reference 1-3, hence true at both bounds and
false one step outside them. -/
theorem c7_validate_loan_days_spec : ∀ (bt : String) (d : ℤ),
    (validate_loan_days bt d =
        Except.error (Err.valueError ("Unknown book type: " ++ bt)) ↔
      LOAN_PERIODS.lookup bt = none) ∧
    (∀ lo hi, LOAN_PERIODS.lookup bt = some (lo, hi) →
      validate_loan_days bt d = Except.ok (decide (lo ≤ d ∧ d ≤ hi))) ∧
    LOAN_PERIODS.lookup REGULAR_BOOK = some (14, 30) ∧
    LOAN_PERIODS.lookup POPULAR_BOOK = some (7, 14) ∧
    LOAN_PERIODS.lookup REFERENCE_BOOK = some (1, 3) ∧
    validate_loan_days REGULAR_BOOK 14 = Except.ok true ∧
    validate_loan_days REGULAR_BOOK 30 = Except.ok true ∧
    validate_loan_days REGULAR_BOOK 13 = Except.ok false ∧
    validate_loan_days REGULAR_BOOK 31 = Except.ok false ∧
    validate_loan_days POPULAR_BOOK 7 = Except.ok true ∧
    validate_loan_days POPULAR_BOOK 14 = Except.ok true ∧
    validate_loan_days POPULAR_BOOK 6 = Except.ok false ∧
    validate_loan_days POPULAR_BOOK 15 = Except.ok false ∧
    validate_loan_days REFERENCE_BOOK 1 = Except.ok true ∧
    validate_loan_days REFERENCE_BOOK 3 = Except.ok true ∧
    validate_loan_days REFERENCE_BOOK 0 = Except.ok false ∧
    validate_loan_days REFERENCE_BOOK 4 = Except.ok false := by
  intro bt d
  refine ⟨?_, ?_, ?_⟩
  · cases h : LOAN_PERIODS.lookup bt with
    | none => simp [validate_loan_days, h]
    | some p =>
      simp only [validate_loan_days, h]
      constructor
      · intro hc
        split at hc <;> exact absurd hc (by simp)
      · intro hc
        exact absurd hc (by simp)
  · intro lo hi h
    simp only [validate_loan_days, h]
    split_ifs with hc
    · have : ¬ (lo ≤ d ∧ d ≤ hi) := by omega
      simp [this]
    · have : lo ≤ d ∧ d ≤ hi := by omega
      simp [this]
  · decide

/-- Claim C7 witness: the generic clause at the Regular range on day 20. -/
theorem c7_witness :
    validate_loan_days REGULAR_BOOK 20 =
      Except.ok (decide ((14 : ℤ) ≤ 20 ∧ (20 : ℤ) ≤ 30)) :=
  (c7_validate_loan_days_spec REGULAR_BOOK 20).2.1 14 30 (by decide)

/-- Claim C9: `calculate_due_date` fails exactly when the loan days are
non-positive or the start is not a datetime; on a valid datetime start and
positive days it returns the start advanced by exactly that many whole days
and raises nothing. -/
theorem c9_due_date_spec : ∀ (v : PyVal) (ld : ℤ),
    ((∃ e, calculate_due_date v ld = Except.error e) ↔
      (ld ≤ 0 ∨ v = PyVal.nonDatetime)) ∧
    (∀ t, v = PyVal.datetime t → 0 < ld →
      calculate_due_date v ld = Except.ok (PyVal.datetime (t + ld))) := by
  intro v ld
  constructor
  · cases v with
    | nonDatetime => simp [calculate_due_date]
    | datetime t =>
      by_cases h : ld ≤ 0 <;> simp [calculate_due_date, h]
  · intro t hv hld
    subst hv
    simp [calculate_due_date, show ¬ ld ≤ 0 by omega]

/-- Claim C9 witness: a concrete datetime advanced by 14 days. -/
theorem c9_witness :
    calculate_due_date (PyVal.datetime 100) 14 =
      Except.ok (PyVal.datetime (100 + 14)) :=
  (c9_due_date_spec (PyVal.datetime 100) 14).2 100 rfl (by decide)

/-- Claim C8: `validate_book_quantity` raises exactly when the tier is
unknown, `currentlyBorrowed < 0`, or `additionalRequested ≤ 0`; on valid
arguments it returns whether `currentlyBorrowed + additionalRequested` stays
within the tier maximum (Regular 5, Premium 10, Researcher 15), so a sum
equal to the maximum yields true and one more yields false. -/
theorem c8_validate_quantity_spec : ∀ (ut : String) (c a : ℤ),
    ((∃ e, validate_book_quantity ut c a = Except.error e) ↔
      (MAX_BOOKS.lookup ut = none ∨ c < 0 ∨ a ≤ 0)) ∧
    (∀ m, MAX_BOOKS.lookup ut = some m → 0 ≤ c → 0 < a →
      validate_book_quantity ut c a = Except.ok (decide (c + a ≤ m))) ∧
    MAX_BOOKS.lookup REGULAR_USER = some 5 ∧
    MAX_BOOKS.lookup PREMIUM_USER = some 10 ∧
    MAX_BOOKS.lookup RESEARCHER_USER = some 15 ∧
    validate_book_quantity REGULAR_USER 4 1 = Except.ok true ∧
    validate_book_quantity REGULAR_USER 5 1 = Except.ok false ∧
    validate_book_quantity PREMIUM_USER 9 1 = Except.ok true ∧
    validate_book_quantity PREMIUM_USER 10 1 = Except.ok false ∧
    validate_book_quantity RESEARCHER_USER 14 1 = Except.ok true ∧
    validate_book_quantity RESEARCHER_USER 15 1 = Except.ok false := by
  intro ut c a
  refine ⟨?_, ?_, by decide⟩
  · cases h : MAX_BOOKS.lookup ut with
    | none => simp [validate_book_quantity, h]
    | some m =>
      simp only [validate_book_quantity, h]
      by_cases hc : c < 0
      · simp [hc]
      · by_cases ha : a ≤ 0
        · simp [hc, ha]
        · simp only [if_neg hc, if_neg ha]
          simp [hc, ha]
          split_ifs <;> simp
  · intro m h hc ha
    simp only [validate_book_quantity, h]
    rw [if_neg (show ¬ (some m = (none : Option ℤ)) by simp),
      if_neg (show ¬ c < 0 by omega), if_neg (show ¬ a ≤ 0 by omega)]
    split_ifs with hs
    · simp [show ¬ (c + a ≤ m) by omega]
    · simp [show c + a ≤ m by omega]

/-- Claim C8 witness: the generic clause for a Premium user at the boundary. -/
theorem c8_witness :
    validate_book_quantity PREMIUM_USER 9 1 = Except.ok (decide ((9 : ℤ) + 1 ≤ 10)) :=
  (c8_validate_quantity_spec PREMIUM_USER 9 1).2.1 10 (by decide) (by decide)
    (by decide)

/-- `LOAN_PERIODS` entry for Regular books. -/
lemma lookup_periods_regular : LOAN_PERIODS.lookup REGULAR_BOOK = some (14, 30) := by
  decide

/-- `LOAN_PERIODS` entry for Popular books. -/
lemma lookup_periods_popular : LOAN_PERIODS.lookup POPULAR_BOOK = some (7, 14) := by
  decide

/-- `LOAN_PERIODS` entry for Reference books. -/
lemma lookup_periods_reference : LOAN_PERIODS.lookup REFERENCE_BOOK = some (1, 3) := by
  decide

/-- `fine_rates` entry for Regular books. -/
lemma lookup_rates_regular : fine_rates.lookup REGULAR_BOOK = some (1 / 2) := by
  simp [fine_rates, List.lookup]

/-- `fine_rates` entry for Popular books. -/
lemma lookup_rates_popular : fine_rates.lookup POPULAR_BOOK = some 1 := by
  simp [fine_rates, List.lookup, REGULAR_BOOK, POPULAR_BOOK]

/-- `fine_rates` entry for Reference books. -/
lemma lookup_rates_reference : fine_rates.lookup REFERENCE_BOOK = some 2 := by
  simp [fine_rates, List.lookup, REGULAR_BOOK, POPULAR_BOOK, REFERENCE_BOOK]

/-- The fine for an overdue Regular book, before the cap is resolved. -/
lemma fine_regular (d : ℤ) (hd : 0 < d) :
    calculate_fine d REGULAR_BOOK =
      Except.ok (min ((d : ℚ) * (1 / 2)) ((1 / 2) * 10)) := by
  simp [calculate_fine, show ¬ d ≤ 0 by omega, lookup_periods_regular,
    lookup_rates_regular]

/-- The fine for an overdue Popular book, before the cap is resolved. -/
lemma fine_popular (d : ℤ) (hd : 0 < d) :
    calculate_fine d POPULAR_BOOK =
      Except.ok (min ((d : ℚ) * 1) ((1 : ℚ) * 10)) := by
  simp only [calculate_fine, if_neg (show ¬ d ≤ 0 by omega)]
  simp [lookup_periods_popular, lookup_rates_popular]

/-- The fine for an overdue Reference book, before the cap is resolved. -/
lemma fine_reference (d : ℤ) (hd : 0 < d) :
    calculate_fine d REFERENCE_BOOK =
      Except.ok (min ((d : ℚ) * 2) ((2 : ℚ) * 10)) := by
  simp only [calculate_fine, if_neg (show ¬ d ≤ 0 by omega)]
  simp [lookup_periods_reference, lookup_rates_reference]

/-- Claim C3: `calculate_fine` returns 0 for non-positive overdue days with
no error even on an unknown category; for positive days it raises the
unknown-book-type error exactly when the category is unknown, and otherwise
returns `min(daysOverdue × dailyRate, 10 × dailyRate)`. -/
theorem c3_fine_error_structure : ∀ (d : ℤ) (bt : String),
    (d ≤ 0 → calculate_fine d bt = Except.ok 0) ∧
    (0 < d → (calculate_fine d bt =
        Except.error (Err.valueError ("Unknown book type: " ++ bt)) ↔
      LOAN_PERIODS.lookup bt = none)) ∧
    (0 < d → ∀ r, fine_rates.lookup bt = some r →
      calculate_fine d bt = Except.ok (min ((d : ℚ) * r) (10 * r))) := by
  intro d bt
  refine ⟨fun h => by simp [calculate_fine, h], ?_, ?_⟩
  · intro hd
    rcases book_type_cases bt with h | h | h | ⟨h1, h2⟩
    · subst h
      rw [fine_regular d hd]
      simp [lookup_periods_regular]
    · subst h
      rw [fine_popular d hd]
      simp [lookup_periods_popular]
    · subst h
      rw [fine_reference d hd]
      simp [lookup_periods_reference]
    · simp [calculate_fine, show ¬ d ≤ 0 by omega, h1]
  · intro hd r hr
    rcases book_type_cases bt with h | h | h | ⟨h1, h2⟩
    · subst h
      rw [lookup_rates_regular] at hr
      obtain rfl : (1 / 2 : ℚ) = r := Option.some.inj hr
      rw [fine_regular d hd, mul_comm (1 / 2 : ℚ) 10]
    · subst h
      rw [lookup_rates_popular] at hr
      obtain rfl : (1 : ℚ) = r := Option.some.inj hr
      rw [fine_popular d hd, mul_comm (1 : ℚ) 10]
    · subst h
      rw [lookup_rates_reference] at hr
      obtain rfl : (2 : ℚ) = r := Option.some.inj hr
      rw [fine_reference d hd, mul_comm (2 : ℚ) 10]
    · rw [h2] at hr
      exact absurd hr (by simp)

/-- Claim C3 witness: the three clauses exercised at concrete inputs. -/
theorem c3_witness :
    calculate_fine (-1) ("zzz") = Except.ok 0 ∧
      (calculate_fine 5 ("zzz") =
          Except.error (Err.valueError ("Unknown book type: zzz")) ↔
        LOAN_PERIODS.lookup ("zzz") = none) ∧
      calculate_fine 4 REGULAR_BOOK =
        Except.ok (min ((4 : ℤ) * (1 / 2 : ℚ)) (10 * (1 / 2))) :=
  ⟨(c3_fine_error_structure (-1) ("zzz")).1 (by decide),
    (c3_fine_error_structure 5 ("zzz")).2.1 (by decide),
    (c3_fine_error_structure 4 REGULAR_BOOK).2.2 (by decide) (1 / 2)
      lookup_rates_regular⟩

/-- A capped fine computed from a rate of `c` hundredths is itself a whole
number of hundredths. -/
lemma min_cents (d c : ℤ) :
    ∃ k : ℤ, min ((d : ℚ) * ((c : ℚ) / 100)) (((c : ℚ) / 100) * 10) =
      (k : ℚ) / 100 := by
  rcases le_total ((d : ℚ) * ((c : ℚ) / 100)) (((c : ℚ) / 100) * 10) with h | h
  · refine ⟨d * c, ?_⟩
    rw [min_eq_left h]
    push_cast
    ring
  · refine ⟨c * 10, ?_⟩
    rw [min_eq_right h]
    push_cast
    ring

/-- Claim C4: for positive overdue days and a known category the fine is an
exact whole number of hundredths (the smallest currency unit), and the fixed
rates give exactly the specified values, the cap holding at and above ten
days. -/
theorem c4_fine_values : ∀ (d : ℤ) (bt : String), 0 < d →
    (LOAN_PERIODS.lookup bt).isSome →
    (∃ k : ℤ, calculate_fine d bt = Except.ok ((k : ℚ) / 100)) ∧
    calculate_fine 10 REGULAR_BOOK = Except.ok 5 ∧
    calculate_fine 20 REGULAR_BOOK = Except.ok 5 ∧
    calculate_fine 10 POPULAR_BOOK = Except.ok 10 ∧
    calculate_fine 10 REFERENCE_BOOK = Except.ok 20 ∧
    calculate_fine 0 REGULAR_BOOK = Except.ok 0 := by
  intro d bt hd hbt
  refine ⟨?_, ?_, ?_, ?_, ?_, by simp [calculate_fine]⟩
  · rcases book_type_cases bt with h | h | h | ⟨h1, h2⟩
    · subst h
      obtain ⟨k, hk⟩ := min_cents d 50
      refine ⟨k, ?_⟩
      rw [fine_regular d hd, show (1 / 2 : ℚ) = (50 : ℤ) / 100 by norm_num, hk]
    · subst h
      obtain ⟨k, hk⟩ := min_cents d 100
      refine ⟨k, ?_⟩
      rw [fine_popular d hd, show (1 : ℚ) = (100 : ℤ) / 100 by norm_num, hk]
    · subst h
      obtain ⟨k, hk⟩ := min_cents d 200
      refine ⟨k, ?_⟩
      rw [fine_reference d hd, show (2 : ℚ) = (200 : ℤ) / 100 by norm_num, hk]
    · rw [h1] at hbt
      exact absurd hbt (by simp)
  · rw [fine_regular 10 (by decide)]
    norm_num
  · rw [fine_regular 20 (by decide)]
    norm_num
  · rw [fine_popular 10 (by decide)]
    norm_num
  · rw [fine_reference 10 (by decide)]
    norm_num

/-- Claim C4 witness: the whole-hundredths clause at three overdue days on a
Regular book. -/
theorem c4_witness :
    ∃ k : ℤ, calculate_fine 3 REGULAR_BOOK = Except.ok ((k : ℚ) / 100) :=
  (c4_fine_values 3 REGULAR_BOOK (by decide) (by decide)).1

/-- Claim C6: `approve_loan` is total — for every numeric input, however
extreme, it returns one of the `Decision` values and raises no error of any
kind; the only potentially raising step, the division, is guarded by the
zero-income rule. -/
theorem c6_decide_total : ∀ (cs : ℤ) (inc debt : ℚ) (emp : Bool),
    ∃ d, approve_loan cs inc debt emp = Except.ok d := by
  intro cs inc debt emp
  by_cases h0 : inc = 0
  · simp only [approve_loan, debt_ratio, if_pos h0]
    split_ifs <;> exact ⟨_, rfl⟩
  · simp only [approve_loan, debt_ratio, if_neg h0, pydiv]
    split_ifs <;> exact ⟨_, rfl⟩

/-- Claim C10 (implicit behaviour): with negative annual income the debt
ratio is negative, so it passes every ratio threshold; an employed applicant
with credit score 750, income -1 and any positive debt is Approved. -/
theorem c10_negative_income_approved : ∀ (debt : ℚ), 0 < debt →
    approve_loan 750 (-1) debt true = Except.ok Decision.Approved := by
  intro debt hdebt
  have hne : (-1 : ℚ) ≠ 0 := by norm_num
  have hle : debt / (-1 : ℚ) ≤ 2 / 5 := by
    rw [div_neg, div_one]
    linarith
  have hb : pyLE (PyFloat.fin (debt / (-1 : ℚ))) ( max_debt_ratio) = true := by
    simp [pyLE, max_debt_ratio]
    exact hle
  simp [approve_loan, debt_ratio, pydiv, hne, hb]

/-- Claim C10 witness: the concrete extreme input from the claim. -/
theorem c10_witness :
    approve_loan 750 (-1) 1000000 true = Except.ok Decision.Approved :=
  c10_negative_income_approved 1000000 (by decide)

/-- Claim C5: with zero annual income the computed debt ratio is infinite —
also when the existing debt is 0 — and an application with zero income and
positive debt is never Approved. -/
theorem c5_zero_income_never_approved : ∀ (cs : ℤ) (debt : ℚ) (emp : Bool),
    debt_ratio 0 debt = Except.ok PyFloat.inf ∧
    (0 < debt → approve_loan cs 0 debt emp ≠ Except.ok Decision.Approved) := by
  intro cs debt emp
  constructor
  · simp [debt_ratio]
  · intro hdebt
    have h1 : ¬ ((min_income : ℚ) ≤ 0) := by norm_num [min_income]
    have h2 : ¬ ((2 : ℚ) * min_income ≤ 0) := by norm_num [min_income]
    simp only [approve_loan, debt_ratio, if_pos rfl, pyLE]
    split_ifs <;> simp_all

/-- Claim C5 witness: the infinite ratio at zero debt, and a concrete
zero-income, positive-debt application that is not Approved. -/
theorem c5_witness :
    debt_ratio 0 0 = Except.ok PyFloat.inf ∧
      approve_loan 800 0 5 true ≠ Except.ok Decision.Approved :=
  ⟨(c5_zero_income_never_approved 800 0 true).1,
    (c5_zero_income_never_approved 800 5 true).2 (by decide)⟩

/-- Claim C1: `approve_loan` implements exactly the ordered first-match
algorithm of the claim (employment gate, then the 750 branch, then the 650
branch, then the escape-hatch branch), always lands in the three-valued
`Decision` enumeration, and never returns Approved for a credit score below
650. -/
theorem c1_decide_first_match : ∀ (cs : ℤ) (inc debt : ℚ) (emp : Bool),
    approve_loan cs inc debt emp = Except.ok (decide_spec cs inc debt emp) ∧
    (decide_spec cs inc debt emp = Decision.Approved ∨
      decide_spec cs inc debt emp = Decision.Rejected ∨
      decide_spec cs inc debt emp = Decision.ManualReview) ∧
    (cs < 650 → approve_loan cs inc debt emp ≠ Except.ok Decision.Approved) := by
  intro cs inc debt emp
  have hhalf : ((2 / 5 : ℚ) / 2) = 1 / 5 := by norm_num
  have h2m : ((2 : ℚ) * 30000) = 60000 := by norm_num
  refine ⟨?_, by cases decide_spec cs inc debt emp <;> simp, ?_⟩
  · by_cases h0 : inc = 0
    · simp only [approve_loan, debt_ratio, if_pos h0, decide_spec,
        min_credit_score, min_income, max_debt_ratio, hhalf, h2m]
      split_ifs <;> rfl
    · simp only [approve_loan, debt_ratio, if_neg h0, pydiv, decide_spec,
        min_credit_score, min_income, max_debt_ratio, hhalf, h2m]
      split_ifs <;> rfl
  · intro hcs
    have h750 : ¬ ((750 : ℤ) ≤ cs) := by omega
    have h650 : ¬ (min_credit_score ≤ cs) := by
      simp only [min_credit_score]
      omega
    by_cases h0 : inc = 0
    · simp only [approve_loan, debt_ratio, if_pos h0, if_neg h750, if_neg h650]
      split_ifs <;> simp
    · simp only [approve_loan, debt_ratio, if_neg h0, pydiv, if_neg h750,
        if_neg h650]
      split_ifs <;> simp

/-- Claim C1 witness: the equality with the claim algorithm and the
no-Approved-below-650 clause at a concrete low-score input. -/
theorem c1_witness :
    approve_loan 600 70000 10500 true =
        Except.ok (decide_spec 600 70000 10500 true) ∧
      approve_loan 600 70000 10500 true ≠ Except.ok Decision.Approved :=
  ⟨(c1_decide_first_match 600 70000 10500 true).1,
    (c1_decide_first_match 600 70000 10500 true).2.2 (by decide)⟩
